import Mathlib

/-!
Shallow embedding of the `componentize-test-sdk` Python package
(`src/test_sdk/wit/...`). The package consists of six generated stub
modules: `exports/__init__.py`, `imports/ip_name_lookup.py`,
`imports/network.py`, `imports/tcp.py`, `imports/udp.py` and
`imports/wasi_filesystem_types.py`. Every method or module-level
function body in those files is either `raise NotImplementedError` or
(for the resource classes' `__enter__`) `return self`, so the embedding
consists of:
  - a small semantics of Python call outcomes (`PyOutcome`) and of the
    two body shapes that occur (`BodyKind`, `callBehavior`);
  - per-resource-class `enter`/`exit` functions translated from the
    source, and a semantics of the `with` statement (`pyWith`);
  - Lean structures for the dataclasses and inductives for the enums;
  - a registry (`allCallables`, `allDecls`) listing, straight from the
    source files, every callable and every top-level declaration with
    its body shape, its `@abstractmethod` flag and its kind.
-/

/-- The only exception class any body in the package raises. -/
inductive PyExc where
  | notImplementedError
deriving DecidableEq

/-- Outcome of calling a Python function: it either raises or returns. -/
inductive PyOutcome (α : Type) where
  | raised (e : PyExc)
  | returned (v : α)
deriving DecidableEq

/-- The two body shapes occurring in the source: `raise NotImplementedError`
and `return self` (the latter only in `__enter__`). -/
inductive BodyKind where
  | raiseNotImplemented
  | returnSelf
deriving DecidableEq

/-- Semantics of executing a body of the given shape on a receiver: the
receiver is returned unchanged together with the call's outcome. -/
def callBehavior {α : Type} (b : BodyKind) (self : α) : α × PyOutcome α :=
  match b with
  | .raiseNotImplemented => (self, .raised .notImplementedError)
  | .returnSelf => (self, .returned self)

/-- One callable of the package: its module, enclosing class (`none` for a
module-level function), name, whether it carries `@abstractmethod`, and
its body shape. -/
structure Callable where
  module : String
  cls : Option String
  name : String
  isAbstractmethod : Bool
  body : BodyKind
deriving DecidableEq

/-- A method whose body is `raise NotImplementedError` and that has no
decorator. -/
def rne (m cls n : String) : Callable :=
  ⟨m, some cls, n, false, .raiseNotImplemented⟩

/-- An `__enter__` method whose body is `return self`. -/
def enterEntry (m cls : String) : Callable :=
  ⟨m, some cls, "__enter__", false, .returnSelf⟩

/-- An `__exit__` method whose body is `raise NotImplementedError`. -/
def exitEntry (m cls : String) : Callable :=
  ⟨m, some cls, "__exit__", false, .raiseNotImplemented⟩

/-- A module-level function whose body is `raise NotImplementedError`. -/
def fnEntry (m n : String) : Callable :=
  ⟨m, none, n, false, .raiseNotImplemented⟩

/-- Every callable defined in the six source files, in source order.
`Run.run` (exports/__init__.py) is the only one with `@abstractmethod`. -/
def allCallables : List Callable :=
  [ ⟨"exports", some "Run", "run", true, .raiseNotImplemented⟩,
    rne "ip_name_lookup" "ResolveAddressStream" "resolve_next_address",
    rne "ip_name_lookup" "ResolveAddressStream" "subscribe",
    enterEntry "ip_name_lookup" "ResolveAddressStream",
    exitEntry "ip_name_lookup" "ResolveAddressStream",
    fnEntry "ip_name_lookup" "resolve_addresses",
    enterEntry "network" "Network",
    exitEntry "network" "Network",
    rne "tcp" "TcpSocket" "start_bind",
    rne "tcp" "TcpSocket" "finish_bind",
    rne "tcp" "TcpSocket" "start_connect",
    rne "tcp" "TcpSocket" "finish_connect",
    rne "tcp" "TcpSocket" "start_listen",
    rne "tcp" "TcpSocket" "finish_listen",
    rne "tcp" "TcpSocket" "accept",
    rne "tcp" "TcpSocket" "local_address",
    rne "tcp" "TcpSocket" "remote_address",
    rne "tcp" "TcpSocket" "is_listening",
    rne "tcp" "TcpSocket" "address_family",
    rne "tcp" "TcpSocket" "set_listen_backlog_size",
    rne "tcp" "TcpSocket" "keep_alive_enabled",
    rne "tcp" "TcpSocket" "set_keep_alive_enabled",
    rne "tcp" "TcpSocket" "keep_alive_idle_time",
    rne "tcp" "TcpSocket" "set_keep_alive_idle_time",
    rne "tcp" "TcpSocket" "keep_alive_interval",
    rne "tcp" "TcpSocket" "set_keep_alive_interval",
    rne "tcp" "TcpSocket" "keep_alive_count",
    rne "tcp" "TcpSocket" "set_keep_alive_count",
    rne "tcp" "TcpSocket" "hop_limit",
    rne "tcp" "TcpSocket" "set_hop_limit",
    rne "tcp" "TcpSocket" "receive_buffer_size",
    rne "tcp" "TcpSocket" "set_receive_buffer_size",
    rne "tcp" "TcpSocket" "send_buffer_size",
    rne "tcp" "TcpSocket" "set_send_buffer_size",
    rne "tcp" "TcpSocket" "subscribe",
    rne "tcp" "TcpSocket" "shutdown",
    enterEntry "tcp" "TcpSocket",
    exitEntry "tcp" "TcpSocket",
    rne "udp" "IncomingDatagramStream" "receive",
    rne "udp" "IncomingDatagramStream" "subscribe",
    enterEntry "udp" "IncomingDatagramStream",
    exitEntry "udp" "IncomingDatagramStream",
    rne "udp" "OutgoingDatagramStream" "check_send",
    rne "udp" "OutgoingDatagramStream" "send",
    rne "udp" "OutgoingDatagramStream" "subscribe",
    enterEntry "udp" "OutgoingDatagramStream",
    exitEntry "udp" "OutgoingDatagramStream",
    rne "udp" "UdpSocket" "start_bind",
    rne "udp" "UdpSocket" "finish_bind",
    rne "udp" "UdpSocket" "stream",
    rne "udp" "UdpSocket" "local_address",
    rne "udp" "UdpSocket" "remote_address",
    rne "udp" "UdpSocket" "address_family",
    rne "udp" "UdpSocket" "unicast_hop_limit",
    rne "udp" "UdpSocket" "set_unicast_hop_limit",
    rne "udp" "UdpSocket" "receive_buffer_size",
    rne "udp" "UdpSocket" "set_receive_buffer_size",
    rne "udp" "UdpSocket" "send_buffer_size",
    rne "udp" "UdpSocket" "set_send_buffer_size",
    rne "udp" "UdpSocket" "subscribe",
    enterEntry "udp" "UdpSocket",
    exitEntry "udp" "UdpSocket",
    rne "wasi_filesystem_types" "DirectoryEntryStream" "read_directory_entry",
    enterEntry "wasi_filesystem_types" "DirectoryEntryStream",
    exitEntry "wasi_filesystem_types" "DirectoryEntryStream",
    rne "wasi_filesystem_types" "Descriptor" "read_via_stream",
    rne "wasi_filesystem_types" "Descriptor" "write_via_stream",
    rne "wasi_filesystem_types" "Descriptor" "append_via_stream",
    rne "wasi_filesystem_types" "Descriptor" "advise",
    rne "wasi_filesystem_types" "Descriptor" "sync_data",
    rne "wasi_filesystem_types" "Descriptor" "get_flags",
    rne "wasi_filesystem_types" "Descriptor" "get_type",
    rne "wasi_filesystem_types" "Descriptor" "set_size",
    rne "wasi_filesystem_types" "Descriptor" "set_times",
    rne "wasi_filesystem_types" "Descriptor" "read",
    rne "wasi_filesystem_types" "Descriptor" "write",
    rne "wasi_filesystem_types" "Descriptor" "read_directory",
    rne "wasi_filesystem_types" "Descriptor" "sync",
    rne "wasi_filesystem_types" "Descriptor" "create_directory_at",
    rne "wasi_filesystem_types" "Descriptor" "stat",
    rne "wasi_filesystem_types" "Descriptor" "stat_at",
    rne "wasi_filesystem_types" "Descriptor" "set_times_at",
    rne "wasi_filesystem_types" "Descriptor" "link_at",
    rne "wasi_filesystem_types" "Descriptor" "open_at",
    rne "wasi_filesystem_types" "Descriptor" "readlink_at",
    rne "wasi_filesystem_types" "Descriptor" "remove_directory_at",
    rne "wasi_filesystem_types" "Descriptor" "rename_at",
    rne "wasi_filesystem_types" "Descriptor" "symlink_at",
    rne "wasi_filesystem_types" "Descriptor" "unlink_file_at",
    rne "wasi_filesystem_types" "Descriptor" "is_same_object",
    rne "wasi_filesystem_types" "Descriptor" "metadata_hash",
    rne "wasi_filesystem_types" "Descriptor" "metadata_hash_at",
    enterEntry "wasi_filesystem_types" "Descriptor",
    exitEntry "wasi_filesystem_types" "Descriptor",
    fnEntry "wasi_filesystem_types" "filesystem_error_code" ]

/-- The kind of a top-level declaration in the source. -/
inductive DeclKind where
  | enumDecl
  | flagDecl
  | dataclassDecl
  | plainClass
  | protocolClass
  | unionAlias
  | moduleFunction
deriving DecidableEq

/-- One top-level declaration of the package. -/
structure Decl where
  module : String
  name : String
  kind : DeclKind
deriving DecidableEq

/-- Every top-level declaration in the six source files, in source order. -/
def allDecls : List Decl :=
  [ ⟨"exports", "Run", .protocolClass⟩,
    ⟨"ip_name_lookup", "ResolveAddressStream", .plainClass⟩,
    ⟨"ip_name_lookup", "resolve_addresses", .moduleFunction⟩,
    ⟨"network", "Network", .plainClass⟩,
    ⟨"network", "ErrorCode", .enumDecl⟩,
    ⟨"network", "IpAddressFamily", .enumDecl⟩,
    ⟨"network", "IpAddress_Ipv4", .dataclassDecl⟩,
    ⟨"network", "IpAddress_Ipv6", .dataclassDecl⟩,
    ⟨"network", "IpAddress", .unionAlias⟩,
    ⟨"network", "Ipv4SocketAddress", .dataclassDecl⟩,
    ⟨"network", "Ipv6SocketAddress", .dataclassDecl⟩,
    ⟨"network", "IpSocketAddress_Ipv4", .dataclassDecl⟩,
    ⟨"network", "IpSocketAddress_Ipv6", .dataclassDecl⟩,
    ⟨"network", "IpSocketAddress", .unionAlias⟩,
    ⟨"tcp", "ShutdownType", .enumDecl⟩,
    ⟨"tcp", "TcpSocket", .plainClass⟩,
    ⟨"udp", "IncomingDatagram", .dataclassDecl⟩,
    ⟨"udp", "OutgoingDatagram", .dataclassDecl⟩,
    ⟨"udp", "IncomingDatagramStream", .plainClass⟩,
    ⟨"udp", "OutgoingDatagramStream", .plainClass⟩,
    ⟨"udp", "UdpSocket", .plainClass⟩,
    ⟨"wasi_filesystem_types", "DescriptorType", .enumDecl⟩,
    ⟨"wasi_filesystem_types", "DescriptorFlags", .flagDecl⟩,
    ⟨"wasi_filesystem_types", "PathFlags", .flagDecl⟩,
    ⟨"wasi_filesystem_types", "OpenFlags", .flagDecl⟩,
    ⟨"wasi_filesystem_types", "DescriptorStat", .dataclassDecl⟩,
    ⟨"wasi_filesystem_types", "NewTimestamp_NoChange", .dataclassDecl⟩,
    ⟨"wasi_filesystem_types", "NewTimestamp_Now", .dataclassDecl⟩,
    ⟨"wasi_filesystem_types", "NewTimestamp_Timestamp", .dataclassDecl⟩,
    ⟨"wasi_filesystem_types", "NewTimestamp", .unionAlias⟩,
    ⟨"wasi_filesystem_types", "DirectoryEntry", .dataclassDecl⟩,
    ⟨"wasi_filesystem_types", "ErrorCode", .enumDecl⟩,
    ⟨"wasi_filesystem_types", "Advice", .enumDecl⟩,
    ⟨"wasi_filesystem_types", "MetadataHashValue", .dataclassDecl⟩,
    ⟨"wasi_filesystem_types", "DirectoryEntryStream", .plainClass⟩,
    ⟨"wasi_filesystem_types", "Descriptor", .plainClass⟩,
    ⟨"wasi_filesystem_types", "filesystem_error_code", .moduleFunction⟩ ]

/-- The eight resource classes: the classes of the package that define the
context-manager pair `__enter__` and `__exit__`. -/
def resourceClasses : List String :=
  [ "Network", "ResolveAddressStream", "TcpSocket", "UdpSocket",
    "IncomingDatagramStream", "OutgoingDatagramStream",
    "DirectoryEntryStream", "Descriptor" ]

/-- Whether some class of the package defines a method of the given name. -/
def hasMethod (cls n : String) : Bool :=
  allCallables.any fun c => c.cls == some cls && c.name == n

/-- Whether a class splits an operation into a `start_` and `finish_`
method pair. -/
def splitsStartFinish (cls op : String) : Bool :=
  hasMethod cls ("start_" ++ op) && hasMethod cls ("finish_" ++ op)

/-- Whether a declaration belongs to one of the three binding surfaces the
spec names: network sockets (modules `network`, `tcp`, `udp`), name
resolution (module `ip_name_lookup`) or filesystem descriptors (module
`wasi_filesystem_types`). -/
def inDescribedAreas (d : Decl) : Bool :=
  d.module == "network" || d.module == "tcp" || d.module == "udp" ||
    d.module == "ip_name_lookup" || d.module == "wasi_filesystem_types"

/-- The `Network` resource (network.py): an opaque capability; the class
defines no fields. -/
structure Network where
  ofHandle ::
deriving DecidableEq

/-- `Network.__enter__` (network.py line 18): `return self`. -/
def Network.enter (self : Network) : PyOutcome Network :=
  .returned self

/-- `Network.__exit__` (network.py line 22): `raise NotImplementedError`,
whatever the three exception-info arguments are. -/
def Network.exit (self : Network) (excType excValue : Option PyExc)
    (tb : Option Unit) : PyOutcome (Option Bool) :=
  .raised .notImplementedError

/-- The `ResolveAddressStream` resource (ip_name_lookup.py). -/
structure ResolveAddressStream where
  ofHandle ::
deriving DecidableEq

/-- `ResolveAddressStream.__enter__`: `return self`. -/
def ResolveAddressStream.enter (self : ResolveAddressStream) :
    PyOutcome ResolveAddressStream :=
  .returned self

/-- `ResolveAddressStream.__exit__`: `raise NotImplementedError`. -/
def ResolveAddressStream.exit (self : ResolveAddressStream)
    (excType excValue : Option PyExc) (tb : Option Unit) :
    PyOutcome (Option Bool) :=
  .raised .notImplementedError

/-- The `TcpSocket` resource (tcp.py). -/
structure TcpSocket where
  ofHandle ::
deriving DecidableEq

/-- `TcpSocket.__enter__` (tcp.py line 461): `return self`. -/
def TcpSocket.enter (self : TcpSocket) : PyOutcome TcpSocket :=
  .returned self

/-- `TcpSocket.__exit__` (tcp.py line 465): `raise NotImplementedError`. -/
def TcpSocket.exit (self : TcpSocket) (excType excValue : Option PyExc)
    (tb : Option Unit) : PyOutcome (Option Bool) :=
  .raised .notImplementedError

/-- The `UdpSocket` resource (udp.py). -/
structure UdpSocket where
  ofHandle ::
deriving DecidableEq

/-- `UdpSocket.__enter__` (udp.py line 345): `return self`. -/
def UdpSocket.enter (self : UdpSocket) : PyOutcome UdpSocket :=
  .returned self

/-- `UdpSocket.__exit__` (udp.py line 349): `raise NotImplementedError`. -/
def UdpSocket.exit (self : UdpSocket) (excType excValue : Option PyExc)
    (tb : Option Unit) : PyOutcome (Option Bool) :=
  .raised .notImplementedError

/-- The `IncomingDatagramStream` resource (udp.py). -/
structure IncomingDatagramStream where
  ofHandle ::
deriving DecidableEq

/-- `IncomingDatagramStream.__enter__` (udp.py line 67): `return self`. -/
def IncomingDatagramStream.enter (self : IncomingDatagramStream) :
    PyOutcome IncomingDatagramStream :=
  .returned self

/-- `IncomingDatagramStream.__exit__` (udp.py line 71):
`raise NotImplementedError`. -/
def IncomingDatagramStream.exit (self : IncomingDatagramStream)
    (excType excValue : Option PyExc) (tb : Option Unit) :
    PyOutcome (Option Bool) :=
  .raised .notImplementedError

/-- The `OutgoingDatagramStream` resource (udp.py). -/
structure OutgoingDatagramStream where
  ofHandle ::
deriving DecidableEq

/-- `OutgoingDatagramStream.__enter__` (udp.py line 145): `return self`. -/
def OutgoingDatagramStream.enter (self : OutgoingDatagramStream) :
    PyOutcome OutgoingDatagramStream :=
  .returned self

/-- `OutgoingDatagramStream.__exit__` (udp.py line 149):
`raise NotImplementedError`. -/
def OutgoingDatagramStream.exit (self : OutgoingDatagramStream)
    (excType excValue : Option PyExc) (tb : Option Unit) :
    PyOutcome (Option Bool) :=
  .raised .notImplementedError

/-- The `DirectoryEntryStream` resource (wasi_filesystem_types.py). -/
structure DirectoryEntryStream where
  ofHandle ::
deriving DecidableEq

/-- `DirectoryEntryStream.__enter__` (wasi_filesystem_types.py line 203):
`return self`. -/
def DirectoryEntryStream.enter (self : DirectoryEntryStream) :
    PyOutcome DirectoryEntryStream :=
  .returned self

/-- `DirectoryEntryStream.__exit__` (wasi_filesystem_types.py line 207):
`raise NotImplementedError`. -/
def DirectoryEntryStream.exit (self : DirectoryEntryStream)
    (excType excValue : Option PyExc) (tb : Option Unit) :
    PyOutcome (Option Bool) :=
  .raised .notImplementedError

/-- The `Descriptor` resource (wasi_filesystem_types.py). -/
structure Descriptor where
  ofHandle ::
deriving DecidableEq

/-- `Descriptor.__enter__` (wasi_filesystem_types.py line 569):
`return self`. -/
def Descriptor.enter (self : Descriptor) : PyOutcome Descriptor :=
  .returned self

/-- `Descriptor.__exit__` (wasi_filesystem_types.py line 573):
`raise NotImplementedError`. -/
def Descriptor.exit (self : Descriptor) (excType excValue : Option PyExc)
    (tb : Option Unit) : PyOutcome (Option Bool) :=
  .raised .notImplementedError

/-- Semantics of Python's `with res as s: body`. `__enter__` is called on
the resource; if it returns, the body runs on the bound value; then
`__exit__` is called — with `(None, None, None)` after a normal body, or
with the exception info after a raising body. An exception raised by
`__exit__` propagates; a truthy return from `__exit__` suppresses the
body's exception. -/
def pyWith {σ β : Type} (res : σ) (enter : σ → PyOutcome σ)
    (body : σ → PyOutcome β)
    (exitFn : σ → Option PyExc → Option PyExc → Option Unit →
      PyOutcome (Option Bool)) : PyOutcome (Option β) :=
  match enter res with
  | .raised e => .raised e
  | .returned s =>
    match body s with
    | .returned b =>
      match exitFn res none none none with
      | .raised e2 => .raised e2
      | .returned _ => .returned (some b)
    | .raised e =>
      match exitFn res (some e) (some e) none with
      | .raised e2 => .raised e2
      | .returned (some true) => .returned none
      | .returned _ => .raised e

/-- Dataclass `Ipv4SocketAddress` (network.py lines 84-87): fields `port`
and `address`. -/
structure Ipv4SocketAddress where
  port : Int
  address : Int × Int × Int × Int
deriving DecidableEq

set_option synthInstance.maxSize 512 in
/-- Dataclass `Ipv6SocketAddress` (network.py lines 89-94): fields `port`,
`flow_info`, `address` and `scope_id`. -/
structure Ipv6SocketAddress where
  port : Int
  flow_info : Int
  address : Int × Int × Int × Int × Int × Int × Int × Int
  scope_id : Int
deriving DecidableEq

/-- Dataclass `MetadataHashValue` (wasi_filesystem_types.py lines 182-189):
fields `lower` and `upper`. -/
structure MetadataHashValue where
  lower : Int
  upper : Int
deriving DecidableEq

/-- Enum `DescriptorType` (wasi_filesystem_types.py lines 39-52). -/
inductive DescriptorType where
  | unknown
  | blockDevice
  | characterDevice
  | directory
  | fifo
  | symbolicLink
  | regularFile
  | socket
deriving DecidableEq

/-- Dataclass `DirectoryEntry` (wasi_filesystem_types.py lines 118-124):
fields `type` and `name`. -/
structure DirectoryEntry where
  type : DescriptorType
  name : String
deriving DecidableEq

namespace network

/-- Enum `ErrorCode` (network.py lines 29-64): the 21 socket error codes,
with the integer values assigned in the source. -/
inductive ErrorCode where
  | unknown
  | accessDenied
  | notSupported
  | invalidArgument
  | outOfMemory
  | timeout
  | concurrencyConflict
  | notInProgress
  | wouldBlock
  | invalidState
  | newSocketLimit
  | addressNotBindable
  | addressInUse
  | remoteUnreachable
  | connectionRefused
  | connectionReset
  | connectionAborted
  | datagramTooLarge
  | nameUnresolvable
  | temporaryResolverFailure
  | permanentResolverFailure
deriving DecidableEq

/-- The integer value each member of `network.ErrorCode` is assigned in
the source (`UNKNOWN = 0` ... `PERMANENT_RESOLVER_FAILURE = 20`). -/
def ErrorCode.value : ErrorCode → Nat
  | .unknown => 0
  | .accessDenied => 1
  | .notSupported => 2
  | .invalidArgument => 3
  | .outOfMemory => 4
  | .timeout => 5
  | .concurrencyConflict => 6
  | .notInProgress => 7
  | .wouldBlock => 8
  | .invalidState => 9
  | .newSocketLimit => 10
  | .addressNotBindable => 11
  | .addressInUse => 12
  | .remoteUnreachable => 13
  | .connectionRefused => 14
  | .connectionReset => 15
  | .connectionAborted => 16
  | .datagramTooLarge => 17
  | .nameUnresolvable => 18
  | .temporaryResolverFailure => 19
  | .permanentResolverFailure => 20

/-- Python's `network.ErrorCode(n)` member lookup by value: the member
carrying value `n`, or nothing when no member does. -/
def ErrorCode.fromValue : Nat → Option ErrorCode
  | 0 => some .unknown
  | 1 => some .accessDenied
  | 2 => some .notSupported
  | 3 => some .invalidArgument
  | 4 => some .outOfMemory
  | 5 => some .timeout
  | 6 => some .concurrencyConflict
  | 7 => some .notInProgress
  | 8 => some .wouldBlock
  | 9 => some .invalidState
  | 10 => some .newSocketLimit
  | 11 => some .addressNotBindable
  | 12 => some .addressInUse
  | 13 => some .remoteUnreachable
  | 14 => some .connectionRefused
  | 15 => some .connectionReset
  | 16 => some .connectionAborted
  | 17 => some .datagramTooLarge
  | 18 => some .nameUnresolvable
  | 19 => some .temporaryResolverFailure
  | 20 => some .permanentResolverFailure
  | _ => none

/-- The members of `network.ErrorCode`, in declaration order. -/
def ErrorCode.members : List ErrorCode :=
  [ .unknown, .accessDenied, .notSupported, .invalidArgument,
    .outOfMemory, .timeout, .concurrencyConflict, .notInProgress,
    .wouldBlock, .invalidState, .newSocketLimit, .addressNotBindable,
    .addressInUse, .remoteUnreachable, .connectionRefused,
    .connectionReset, .connectionAborted, .datagramTooLarge,
    .nameUnresolvable, .temporaryResolverFailure,
    .permanentResolverFailure ]

end network

namespace wasi_filesystem_types

/-- Enum `ErrorCode` (wasi_filesystem_types.py lines 126-169): the 37
filesystem error codes, with the integer values assigned in the source. -/
inductive ErrorCode where
  | access
  | wouldBlock
  | already
  | badDescriptor
  | busy
  | deadlock
  | quota
  | exist
  | fileTooLarge
  | illegalByteSequence
  | inProgress
  | interrupted
  | invalid
  | io
  | isDirectory
  | loop
  | tooManyLinks
  | messageSize
  | nameTooLong
  | noDevice
  | noEntry
  | noLock
  | insufficientMemory
  | insufficientSpace
  | notDirectory
  | notEmpty
  | notRecoverable
  | unsupported
  | noTty
  | noSuchDevice
  | overflow
  | notPermitted
  | pipe
  | readOnly
  | invalidSeek
  | textFileBusy
  | crossDevice
deriving DecidableEq

/-- The integer value each member of `wasi_filesystem_types.ErrorCode` is
assigned in the source (`ACCESS = 0` ... `CROSS_DEVICE = 36`). -/
def ErrorCode.value : ErrorCode → Nat
  | .access => 0
  | .wouldBlock => 1
  | .already => 2
  | .badDescriptor => 3
  | .busy => 4
  | .deadlock => 5
  | .quota => 6
  | .exist => 7
  | .fileTooLarge => 8
  | .illegalByteSequence => 9
  | .inProgress => 10
  | .interrupted => 11
  | .invalid => 12
  | .io => 13
  | .isDirectory => 14
  | .loop => 15
  | .tooManyLinks => 16
  | .messageSize => 17
  | .nameTooLong => 18
  | .noDevice => 19
  | .noEntry => 20
  | .noLock => 21
  | .insufficientMemory => 22
  | .insufficientSpace => 23
  | .notDirectory => 24
  | .notEmpty => 25
  | .notRecoverable => 26
  | .unsupported => 27
  | .noTty => 28
  | .noSuchDevice => 29
  | .overflow => 30
  | .notPermitted => 31
  | .pipe => 32
  | .readOnly => 33
  | .invalidSeek => 34
  | .textFileBusy => 35
  | .crossDevice => 36

/-- Python's `wasi_filesystem_types.ErrorCode(n)` member lookup by value. -/
def ErrorCode.fromValue : Nat → Option ErrorCode
  | 0 => some .access
  | 1 => some .wouldBlock
  | 2 => some .already
  | 3 => some .badDescriptor
  | 4 => some .busy
  | 5 => some .deadlock
  | 6 => some .quota
  | 7 => some .exist
  | 8 => some .fileTooLarge
  | 9 => some .illegalByteSequence
  | 10 => some .inProgress
  | 11 => some .interrupted
  | 12 => some .invalid
  | 13 => some .io
  | 14 => some .isDirectory
  | 15 => some .loop
  | 16 => some .tooManyLinks
  | 17 => some .messageSize
  | 18 => some .nameTooLong
  | 19 => some .noDevice
  | 20 => some .noEntry
  | 21 => some .noLock
  | 22 => some .insufficientMemory
  | 23 => some .insufficientSpace
  | 24 => some .notDirectory
  | 25 => some .notEmpty
  | 26 => some .notRecoverable
  | 27 => some .unsupported
  | 28 => some .noTty
  | 29 => some .noSuchDevice
  | 30 => some .overflow
  | 31 => some .notPermitted
  | 32 => some .pipe
  | 33 => some .readOnly
  | 34 => some .invalidSeek
  | 35 => some .textFileBusy
  | 36 => some .crossDevice
  | _ => none

/-- The members of `wasi_filesystem_types.ErrorCode`, in declaration
order. -/
def ErrorCode.members : List ErrorCode :=
  [ .access, .wouldBlock, .already, .badDescriptor, .busy, .deadlock,
    .quota, .exist, .fileTooLarge, .illegalByteSequence, .inProgress,
    .interrupted, .invalid, .io, .isDirectory, .loop, .tooManyLinks,
    .messageSize, .nameTooLong, .noDevice, .noEntry, .noLock,
    .insufficientMemory, .insufficientSpace, .notDirectory, .notEmpty,
    .notRecoverable, .unsupported, .noTty, .noSuchDevice, .overflow,
    .notPermitted, .pipe, .readOnly, .invalidSeek, .textFileBusy,
    .crossDevice ]

end wasi_filesystem_types

/-- C1 (counterexample): `Network.__enter__` is a callable of the package
whose body is `return self`; calling it returns the receiver rather than
raising, so it is false that every method or function of the package
raises `NotImplementedError`. -/
theorem network_enter_refutes_every_callable_raises :
    enterEntry "network" "Network" ∈ allCallables ∧
    (enterEntry "network" "Network").body ≠ BodyKind.raiseNotImplemented ∧
    Network.enter Network.ofHandle = PyOutcome.returned Network.ofHandle ∧
    ¬ (∀ c ∈ allCallables, c.body = BodyKind.raiseNotImplemented) := by
  exact ⟨by decide, by decide, rfl, by decide⟩

/-- C1 (amended): every method and module-level function of the package
raises `NotImplementedError`, except the resource classes' `__enter__`
methods, whose body is `return self`. -/
theorem every_callable_raises_except_enter :
    ∀ c ∈ allCallables,
      (c.name = "__enter__" ∧ c.body = BodyKind.returnSelf) ∨
      (c.name ≠ "__enter__" ∧ c.body = BodyKind.raiseNotImplemented) := by
  decide

/-- Witness: the amended C1 statement evaluated at `TcpSocket.start_bind`. -/
theorem every_callable_raises_except_enter_witness :
    ((rne "tcp" "TcpSocket" "start_bind").name = "__enter__" ∧
      (rne "tcp" "TcpSocket" "start_bind").body = BodyKind.returnSelf) ∨
    ((rne "tcp" "TcpSocket" "start_bind").name ≠ "__enter__" ∧
      (rne "tcp" "TcpSocket" "start_bind").body =
        BodyKind.raiseNotImplemented) :=
  every_callable_raises_except_enter (rne "tcp" "TcpSocket" "start_bind")
    (by decide)

/-- C2: every callable of the package has one of the two stub body shapes,
and executing either shape leaves the receiver (and hence every field of
receiver and arguments) unchanged, the only outcome being an immediate
`NotImplementedError` or the receiver returned as-is. -/
theorem calls_have_no_effect :
    (∀ c ∈ allCallables,
      c.body = BodyKind.raiseNotImplemented ∨
        c.body = BodyKind.returnSelf) ∧
    (∀ (α : Type) (b : BodyKind) (self : α),
      (callBehavior b self).1 = self ∧
      ((callBehavior b self).2 = PyOutcome.raised PyExc.notImplementedError ∨
        (callBehavior b self).2 = PyOutcome.returned self)) := by
  refine ⟨by decide, ?_⟩
  intro α b self
  cases b
  · exact ⟨rfl, Or.inl rfl⟩
  · exact ⟨rfl, Or.inr rfl⟩

/-- Witness: the C2 statement evaluated at `filesystem_error_code` and at
a concrete receiver. -/
theorem calls_have_no_effect_witness :
    ((fnEntry "wasi_filesystem_types" "filesystem_error_code").body =
        BodyKind.raiseNotImplemented ∨
      (fnEntry "wasi_filesystem_types" "filesystem_error_code").body =
        BodyKind.returnSelf) ∧
    (callBehavior BodyKind.raiseNotImplemented (37 : Nat)).1 = 37 :=
  ⟨calls_have_no_effect.1
      (fnEntry "wasi_filesystem_types" "filesystem_error_code") (by decide),
    (calls_have_no_effect.2 Nat BodyKind.raiseNotImplemented 37).1⟩

/-- C3 (counterexample): the claim's universal over declarations fails
twice. `TcpSocket.start_bind` raises `NotImplementedError` but carries no
`@abstractmethod` decorator, so not every raising method is declared
abstract; and `IpAddress` (network.py line 81) is a union-type alias,
which is neither an enum, nor a dataclass, nor a method. -/
theorem start_bind_raises_without_abstractmethod :
    (rne "tcp" "TcpSocket" "start_bind" ∈ allCallables ∧
      (rne "tcp" "TcpSocket" "start_bind").body =
        BodyKind.raiseNotImplemented ∧
      (rne "tcp" "TcpSocket" "start_bind").isAbstractmethod = false ∧
      ¬ (∀ c ∈ allCallables,
          c.body = BodyKind.raiseNotImplemented →
            c.isAbstractmethod = true)) ∧
    (Decl.mk "network" "IpAddress" DeclKind.unionAlias ∈ allDecls ∧
      (Decl.mk "network" "IpAddress" DeclKind.unionAlias).kind ≠
        DeclKind.enumDecl ∧
      (Decl.mk "network" "IpAddress" DeclKind.unionAlias).kind ≠
        DeclKind.dataclassDecl) := by
  decide

/-- C3 (amended): every declaration of the package is an enum (`Enum` or
`Flag`), a dataclass, a union-type alias, or a class or module-level
function made of stub bodies — the enum, dataclass and alias declarations
define no callables at all, each class declaration has only methods that
raise `NotImplementedError` (or, for `__enter__`, return self), and each
module-level function raises `NotImplementedError`; moreover only
`Run.run` is declared with `@abstractmethod`, every other raising body
being an ordinary, undecorated method or function. -/
theorem stub_bodies_only_run_abstract :
    (∀ d ∈ allDecls,
      ((d.kind = DeclKind.enumDecl ∨ d.kind = DeclKind.flagDecl ∨
          d.kind = DeclKind.dataclassDecl ∨
          d.kind = DeclKind.unionAlias) ∧
        (allCallables.all fun c =>
          c.module != d.module || c.cls != some d.name) = true) ∨
      ((d.kind = DeclKind.plainClass ∨
          d.kind = DeclKind.protocolClass) ∧
        (allCallables.any fun c =>
          c.module == d.module && c.cls == some d.name) = true ∧
        (allCallables.all fun c =>
          c.module != d.module || c.cls != some d.name ||
            (if c.name == "__enter__" then c.body == BodyKind.returnSelf
              else c.body == BodyKind.raiseNotImplemented)) = true) ∨
      (d.kind = DeclKind.moduleFunction ∧
        (allCallables.any fun c =>
          c.module == d.module && c.cls == none && c.name == d.name &&
            c.body == BodyKind.raiseNotImplemented) = true)) ∧
    (∀ c ∈ allCallables,
      (c.body = BodyKind.raiseNotImplemented ∨
        (c.name = "__enter__" ∧ c.body = BodyKind.returnSelf)) ∧
      (c.isAbstractmethod = true ↔
        (c.cls = some "Run" ∧ c.name = "run"))) := by
  exact ⟨by decide, by decide⟩

/-- Witness: the amended C3 statement evaluated at the `TcpSocket` class
declaration and at the callable `Run.run`. -/
theorem stub_bodies_only_run_abstract_witness :
    ((((Decl.mk "tcp" "TcpSocket" DeclKind.plainClass).kind =
          DeclKind.enumDecl ∨
        (Decl.mk "tcp" "TcpSocket" DeclKind.plainClass).kind =
          DeclKind.flagDecl ∨
        (Decl.mk "tcp" "TcpSocket" DeclKind.plainClass).kind =
          DeclKind.dataclassDecl ∨
        (Decl.mk "tcp" "TcpSocket" DeclKind.plainClass).kind =
          DeclKind.unionAlias) ∧
      (allCallables.all fun c =>
        c.module != "tcp" || c.cls != some "TcpSocket") = true) ∨
    (((Decl.mk "tcp" "TcpSocket" DeclKind.plainClass).kind =
          DeclKind.plainClass ∨
        (Decl.mk "tcp" "TcpSocket" DeclKind.plainClass).kind =
          DeclKind.protocolClass) ∧
      (allCallables.any fun c =>
        c.module == "tcp" && c.cls == some "TcpSocket") = true ∧
      (allCallables.all fun c =>
        c.module != "tcp" || c.cls != some "TcpSocket" ||
          (if c.name == "__enter__" then c.body == BodyKind.returnSelf
            else c.body == BodyKind.raiseNotImplemented)) = true) ∨
    ((Decl.mk "tcp" "TcpSocket" DeclKind.plainClass).kind =
        DeclKind.moduleFunction ∧
      (allCallables.any fun c =>
        c.module == "tcp" && c.cls == none && c.name == "TcpSocket" &&
          c.body == BodyKind.raiseNotImplemented) = true)) ∧
    (((⟨"exports", some "Run", "run", true,
        BodyKind.raiseNotImplemented⟩ : Callable).body =
          BodyKind.raiseNotImplemented ∨
      ((⟨"exports", some "Run", "run", true,
          BodyKind.raiseNotImplemented⟩ : Callable).name = "__enter__" ∧
        (⟨"exports", some "Run", "run", true,
          BodyKind.raiseNotImplemented⟩ : Callable).body =
            BodyKind.returnSelf)) ∧
    ((⟨"exports", some "Run", "run", true,
        BodyKind.raiseNotImplemented⟩ : Callable).isAbstractmethod = true ↔
      ((⟨"exports", some "Run", "run", true,
          BodyKind.raiseNotImplemented⟩ : Callable).cls = some "Run" ∧
        (⟨"exports", some "Run", "run", true,
          BodyKind.raiseNotImplemented⟩ : Callable).name = "run"))) :=
  ⟨stub_bodies_only_run_abstract.1
      (Decl.mk "tcp" "TcpSocket" DeclKind.plainClass) (by decide),
    stub_bodies_only_run_abstract.2
      ⟨"exports", some "Run", "run", true, BodyKind.raiseNotImplemented⟩
      (by decide)⟩

/-- C4 (counterexample): `Ipv4SocketAddress` is a dataclass of the package
that, constructed with port 80 and address (127, 0, 0, 1), yields those
very values back from its fields — a concrete, constructible data
container, contrary to the claim that none exists. -/
theorem ipv4_socket_address_stores_fields :
    Decl.mk "network" "Ipv4SocketAddress" DeclKind.dataclassDecl ∈
      allDecls ∧
    (Ipv4SocketAddress.mk 80 (127, 0, 0, 1)).port = 80 ∧
    (Ipv4SocketAddress.mk 80 (127, 0, 0, 1)).address = (127, 0, 0, 1) := by
  exact ⟨by decide, rfl, rfl⟩

/-- C4 (amended): the package does define concrete constructible
dataclasses whose construction stores and yields back its field values
(`Ipv4SocketAddress`, `DirectoryEntry`, `MetadataHashValue`, ...); what is
not realized is behavior: every callable's body is a stub. -/
theorem dataclasses_store_fields_no_behavior :
    (∀ (p : Int) (a : Int × Int × Int × Int),
      (Ipv4SocketAddress.mk p a).port = p ∧
        (Ipv4SocketAddress.mk p a).address = a) ∧
    (∀ (t : DescriptorType) (n : String),
      (DirectoryEntry.mk t n).type = t ∧ (DirectoryEntry.mk t n).name = n) ∧
    (∀ lo hi : Int,
      (MetadataHashValue.mk lo hi).lower = lo ∧
        (MetadataHashValue.mk lo hi).upper = hi) ∧
    (∀ c ∈ allCallables,
      c.body = BodyKind.raiseNotImplemented ∨
        c.body = BodyKind.returnSelf) := by
  exact ⟨fun p a => ⟨rfl, rfl⟩, fun t n => ⟨rfl, rfl⟩,
    fun lo hi => ⟨rfl, rfl⟩, by decide⟩

/-- Witness: the amended C4 statement evaluated at a concrete address and
at `Descriptor.stat`. -/
theorem dataclasses_store_fields_no_behavior_witness :
    ((Ipv4SocketAddress.mk 443 (10, 0, 0, 7)).port = 443 ∧
      (Ipv4SocketAddress.mk 443 (10, 0, 0, 7)).address = (10, 0, 0, 7)) ∧
    ((rne "wasi_filesystem_types" "Descriptor" "stat").body =
        BodyKind.raiseNotImplemented ∨
      (rne "wasi_filesystem_types" "Descriptor" "stat").body =
        BodyKind.returnSelf) :=
  ⟨dataclasses_store_fields_no_behavior.1 443 (10, 0, 0, 7),
    dataclasses_store_fields_no_behavior.2.2.2
      (rne "wasi_filesystem_types" "Descriptor" "stat") (by decide)⟩

/-- C5 (counterexample): the exported `Run` protocol
(exports/__init__.py) is a declared interface of the package that belongs
to none of the three binding surfaces (sockets, name resolution,
filesystem descriptors): it is the program entry point. -/
theorem run_export_outside_three_areas :
    Decl.mk "exports" "Run" DeclKind.protocolClass ∈ allDecls ∧
    inDescribedAreas (Decl.mk "exports" "Run" DeclKind.protocolClass) =
      false ∧
    ¬ (∀ d ∈ allDecls, inDescribedAreas d = true) := by
  decide

/-- C5 (amended): every declared interface of the package belongs to one
of the three binding surfaces — network sockets, name resolution or
filesystem descriptors — except the single exported `Run` protocol, the
program entry point. -/
theorem decls_in_three_areas_except_run :
    ∀ d ∈ allDecls,
      inDescribedAreas d = true ∨
        (d.module = "exports" ∧ d.name = "Run") := by
  decide

/-- Witness: the amended C5 statement evaluated at the `TcpSocket`
declaration. -/
theorem decls_in_three_areas_except_run_witness :
    inDescribedAreas (Decl.mk "tcp" "TcpSocket" DeclKind.plainClass) =
      true ∨
    ((Decl.mk "tcp" "TcpSocket" DeclKind.plainClass).module = "exports" ∧
      (Decl.mk "tcp" "TcpSocket" DeclKind.plainClass).name = "Run") :=
  decls_in_three_areas_except_run
    (Decl.mk "tcp" "TcpSocket" DeclKind.plainClass) (by decide)

/-- C6 (counterexample): `UdpSocket` defines no `start_listen` and no
`start_connect` method, so it is false that both socket classes split
each of bind, listen and connect into start/finish pairs. -/
theorem udp_listen_not_start_finish_split :
    hasMethod "UdpSocket" "start_listen" = false ∧
    hasMethod "UdpSocket" "start_connect" = false ∧
    splitsStartFinish "UdpSocket" "listen" = false ∧
    (["TcpSocket", "UdpSocket"].all fun cls =>
      ["bind", "listen", "connect"].all fun op =>
        splitsStartFinish cls op) = false := by
  decide

/-- C6 (amended): `TcpSocket` splits each of bind, listen and connect
into an asynchronous start/finish pair; `UdpSocket` splits only bind, its
peer association being the single `stream` method, with no listen or
connect pair at all. -/
theorem socket_start_finish_pairs :
    splitsStartFinish "TcpSocket" "bind" = true ∧
    splitsStartFinish "TcpSocket" "listen" = true ∧
    splitsStartFinish "TcpSocket" "connect" = true ∧
    splitsStartFinish "UdpSocket" "bind" = true ∧
    hasMethod "UdpSocket" "stream" = true ∧
    hasMethod "UdpSocket" "start_listen" = false ∧
    hasMethod "UdpSocket" "finish_listen" = false ∧
    hasMethod "UdpSocket" "start_connect" = false ∧
    hasMethod "UdpSocket" "finish_connect" = false := by
  decide

/-- C7: each of the eight resource classes defines `__enter__` with body
`return self`, every `__enter__` in the package does so, and semantically
entering each resource returns the receiver itself, unchanged and without
raising. -/
theorem enter_returns_receiver :
    (resourceClasses.all fun cls =>
      allCallables.any fun c =>
        c.cls == some cls && c.name == "__enter__" &&
          c.body == BodyKind.returnSelf) = true ∧
    (allCallables.all fun c =>
      c.name != "__enter__" || c.body == BodyKind.returnSelf) = true ∧
    (∀ s : Network, Network.enter s = PyOutcome.returned s) ∧
    (∀ s : ResolveAddressStream,
      ResolveAddressStream.enter s = PyOutcome.returned s) ∧
    (∀ s : TcpSocket, TcpSocket.enter s = PyOutcome.returned s) ∧
    (∀ s : UdpSocket, UdpSocket.enter s = PyOutcome.returned s) ∧
    (∀ s : IncomingDatagramStream,
      IncomingDatagramStream.enter s = PyOutcome.returned s) ∧
    (∀ s : OutgoingDatagramStream,
      OutgoingDatagramStream.enter s = PyOutcome.returned s) ∧
    (∀ s : DirectoryEntryStream,
      DirectoryEntryStream.enter s = PyOutcome.returned s) ∧
    (∀ s : Descriptor, Descriptor.enter s = PyOutcome.returned s) := by
  exact ⟨by decide, by decide, fun s => rfl, fun s => rfl, fun s => rfl,
    fun s => rfl, fun s => rfl, fun s => rfl, fun s => rfl, fun s => rfl⟩

/-- C8: each of the eight resource classes defines `__exit__` with body
`raise NotImplementedError`, the exit functions raise whatever their
arguments are, and consequently a `with` statement over a resource whose
`__enter__` returns the receiver and whose `__exit__` raises ends in
`NotImplementedError` even when the block body completes successfully. -/
theorem exit_raises_so_with_raises :
    ((resourceClasses.all fun cls =>
      allCallables.any fun c =>
        c.cls == some cls && c.name == "__exit__" &&
          c.body == BodyKind.raiseNotImplemented) = true ∧
    (allCallables.all fun c =>
      c.name != "__exit__" ||
        c.body == BodyKind.raiseNotImplemented) = true) ∧
    ((∀ (s : Network) (t e : Option PyExc) (tb : Option Unit),
      Network.exit s t e tb =
        PyOutcome.raised PyExc.notImplementedError) ∧
    (∀ (s : ResolveAddressStream) (t e : Option PyExc) (tb : Option Unit),
      ResolveAddressStream.exit s t e tb =
        PyOutcome.raised PyExc.notImplementedError) ∧
    (∀ (s : TcpSocket) (t e : Option PyExc) (tb : Option Unit),
      TcpSocket.exit s t e tb =
        PyOutcome.raised PyExc.notImplementedError) ∧
    (∀ (s : UdpSocket) (t e : Option PyExc) (tb : Option Unit),
      UdpSocket.exit s t e tb =
        PyOutcome.raised PyExc.notImplementedError) ∧
    (∀ (s : IncomingDatagramStream) (t e : Option PyExc) (tb : Option Unit),
      IncomingDatagramStream.exit s t e tb =
        PyOutcome.raised PyExc.notImplementedError) ∧
    (∀ (s : OutgoingDatagramStream) (t e : Option PyExc) (tb : Option Unit),
      OutgoingDatagramStream.exit s t e tb =
        PyOutcome.raised PyExc.notImplementedError) ∧
    (∀ (s : DirectoryEntryStream) (t e : Option PyExc) (tb : Option Unit),
      DirectoryEntryStream.exit s t e tb =
        PyOutcome.raised PyExc.notImplementedError) ∧
    (∀ (s : Descriptor) (t e : Option PyExc) (tb : Option Unit),
      Descriptor.exit s t e tb =
        PyOutcome.raised PyExc.notImplementedError)) ∧
    (∀ (σ β : Type) (res : σ) (enter : σ → PyOutcome σ)
        (exitFn : σ → Option PyExc → Option PyExc → Option Unit →
          PyOutcome (Option Bool))
        (body : σ → PyOutcome β) (v : β),
      enter res = PyOutcome.returned res →
      exitFn res none none none =
        PyOutcome.raised PyExc.notImplementedError →
      body res = PyOutcome.returned v →
      pyWith res enter body exitFn =
        PyOutcome.raised PyExc.notImplementedError) := by
  refine ⟨⟨by decide, by decide⟩,
    ⟨fun s t e tb => rfl, fun s t e tb => rfl, fun s t e tb => rfl,
      fun s t e tb => rfl, fun s t e tb => rfl, fun s t e tb => rfl,
      fun s t e tb => rfl, fun s t e tb => rfl⟩, ?_⟩
  intro σ β res enter exitFn body v h1 h2 h3
  simp [pyWith, h1, h3, h2]

/-- Witness: the C8 statement applied to a `with` over a `Network`
resource whose block body returns 0. -/
theorem exit_raises_so_with_raises_witness :
    pyWith Network.ofHandle Network.enter
      (fun _ => PyOutcome.returned (0 : Nat)) Network.exit =
      PyOutcome.raised PyExc.notImplementedError :=
  exit_raises_so_with_raises.2.2 Network Nat Network.ofHandle
    Network.enter Network.exit (fun _ => PyOutcome.returned 0) 0
    rfl rfl rfl

/-- C9: both `ErrorCode` enums assign pairwise-distinct values to their
members — `network.ErrorCode` exactly 0 through 20 over its 21 members,
`wasi_filesystem_types.ErrorCode` exactly 0 through 36 over its 37
members — and looking a member's value back up returns that member. -/
theorem error_code_enums_roundtrip :
    (∀ e : network.ErrorCode,
      network.ErrorCode.fromValue (network.ErrorCode.value e) = some e) ∧
    network.ErrorCode.members.length = 21 ∧
    (∀ e : network.ErrorCode, e ∈ network.ErrorCode.members) ∧
    network.ErrorCode.members.map network.ErrorCode.value =
      List.range 21 ∧
    (network.ErrorCode.members.map network.ErrorCode.value).Nodup ∧
    (∀ e : wasi_filesystem_types.ErrorCode,
      wasi_filesystem_types.ErrorCode.fromValue
        (wasi_filesystem_types.ErrorCode.value e) = some e) ∧
    wasi_filesystem_types.ErrorCode.members.length = 37 ∧
    (∀ e : wasi_filesystem_types.ErrorCode,
      e ∈ wasi_filesystem_types.ErrorCode.members) ∧
    wasi_filesystem_types.ErrorCode.members.map
      wasi_filesystem_types.ErrorCode.value = List.range 37 ∧
    (wasi_filesystem_types.ErrorCode.members.map
      wasi_filesystem_types.ErrorCode.value).Nodup := by
  refine ⟨fun e => by cases e <;> rfl, rfl, fun e => by cases e <;> decide,
    by decide, by decide, fun e => by cases e <;> rfl, rfl,
    fun e => by cases e <;> decide, by decide, by decide⟩
